import Mathlib

/-!
# Verification of the transport and access-control layer

A shallow embedding, in Lean 4, of the transport / access-control core of the
`mcp-server-gmail` repository:

* `src/cors-middleware.ts` — origin pattern matching, private-network
  detection, CORS validation;
* `src/network-utils.ts` — network stack detection, binding strategy
  selection and the bind fallback cascade;
* `src/http-transport.ts` — the `/health` aggregation and the `/mcp`
  JSON-RPC bridge;
* `src/config.ts` — CORS origin generation and merging;
* `src/server-state.js` — transport supervisor initialization.

Pure functions of the source become Lean functions; interactions with the
outside world (the OS socket layer, the filesystem, the external MCP
dispatch core) are passed in as explicit oracle arguments, so every
definition is executable and every predicate decidable.
-/

namespace GmailMcp

/-! ## JavaScript-level helpers

The source manipulates JavaScript strings and numbers.  We model the small
fragment it uses: `String.prototype.split('.')` and `Number(...)` on
decimal numerals (`Number('') = 0`, non-numeric text gives `NaN`, which we
model as `none`). -/

/-- Embeds `s.split('.')` from JavaScript: splitting a character list at
every `'.'`, keeping empty chunks (`''.split('.') = ['']`,
`'.'.split('.') = ['', '']`). -/
def splitDot : List Char → List (List Char)
  | [] => [[]]
  | c :: rest =>
    if c = '.' then [] :: splitDot rest
    else
      match splitDot rest with
      | [] => [[c]]
      | p :: ps => (c :: p) :: ps

/-- Value of a nonempty all-digit character list, `none` otherwise. -/
def digitsVal : List Char → Option Nat
  | l =>
    if l ≠ [] ∧ l.all Char.isDigit then
      some (l.foldl (fun acc c => acc * 10 + (c.toNat - '0'.toNat)) 0)
    else none

/-- Embeds JavaScript `Number(...)` on the strings this code feeds it
(decimal numerals with an optional sign; the empty string is `0`).  `none`
models `NaN`. -/
def jsNumber : List Char → Option Int
  | [] => some 0
  | '-' :: rest => (digitsVal rest).map (fun n => -(n : Int))
  | l => (digitsVal l).map (fun n => (n : Int))

/-! ## `cors-middleware.ts` : `isIPv4PrivateRange` -/

/-- One conjunct of the guard in `isIPv4PrivateRange`:
`isNaN(part) || part < 0 || part > 255`. -/
def octetBad : Option Int → Bool
  | none => true
  | some v => decide (v < 0) || decide (v > 255)

/-- Embeds `CORSMiddleware.isIPv4PrivateRange(ip)`:
`ip.split('.').map(Number)`, reject unless exactly four in-range octets,
then test 10.0.0.0/8, 172.16.0.0/12 (second octet 16–31) and
192.168.0.0/16. -/
def isIPv4PrivateRange (ip : String) : Bool :=
  let ipParts := (splitDot ip.data).map jsNumber
  if ipParts.length ≠ 4 ∨ ipParts.any octetBad then false
  else
    match ipParts with
    | [some a, some b, _, _] =>
      decide (a = 10) || (decide (a = 172) && decide (16 ≤ b) && decide (b ≤ 31)) ||
        (decide (a = 192) && decide (b = 168))
    | _ => false

/-! ## `cors-middleware.ts` : wildcard pattern matching

`matchesOriginPattern` builds, from a pattern, the regular expression
`^(pattern with '.', '[', ']' escaped and '*' replaced by '.*')$` with the
case-insensitive flag, and tests the origin against it.  For the patterns
this program uses (which contain no other regex metacharacters) that regex
denotes: the literal segments of the pattern, case-insensitively, with each
`*` standing for any run of non-newline characters, anchored at both ends.
`wildcardMatch` is that denotation. -/

/-- ASCII-case-insensitive character comparison (the regex `i` flag). -/
def ciEq (c d : Char) : Bool := c.toLower = d.toLower

/-- `starMatch f s` holds when the remainder matcher `f` accepts some
suffix of `s` whose dropped prefix has no newline — the semantics of the
JavaScript regex fragment `.*` followed by the rest of the pattern. -/
def starMatch (f : List Char → Bool) : List Char → Bool
  | [] => f []
  | c :: rest => f (c :: rest) || (decide (c ≠ '\n') && starMatch f rest)

/-- Anchored case-insensitive wildcard matching: the denotation of the
regex `matchesOriginPattern` compiles a `*`-pattern into. -/
def wildcardMatch : List Char → List Char → Bool
  | [], s => s.isEmpty
  | '*' :: pr, s => starMatch (wildcardMatch pr) s
  | _ :: _, [] => false
  | c :: pr, d :: sr => ciEq c d && wildcardMatch pr sr

/-- Embeds `CORSMiddleware.matchesOriginPattern(origin, pattern)`: exact
(case-sensitive) equality first; else, when the pattern contains `*`,
the anchored case-insensitive wildcard regex; else no match. -/
def matchesOriginPattern (origin pattern : String) : Bool :=
  if origin = pattern then true
  else if pattern.data.contains '*' then wildcardMatch pattern.data origin.data
  else false

/-! ## The WHATWG URL parser as the source uses it

`isPrivateNetworkOrigin` calls `new URL(origin)` and reads `.hostname`,
returning `false` when the constructor throws.  We model the fragment of
the WHATWG URL parser this exercises: an origin of shape
`scheme "://" host [":" port] ["/" ...]`, where for a special scheme the
host may not contain a forbidden host character (space, `#`, `/`, `:`,
`<`, `>`, `?`, `@`, `[`, `\`, `]`, `^`, `|`, `%`, control characters) and
is lowercased; a bracketed IPv6 host keeps its brackets in `.hostname`.
Parse failure (the constructor throwing) is `none`. -/

/-- Characters that make a (special-scheme) URL host invalid. -/
def forbiddenHostChar (c : Char) : Bool :=
  c = ' ' || c = '#' || c = '/' || c = ':' || c = '<' || c = '>' || c = '?' ||
    c = '@' || c = '[' || c = '\\' || c = ']' || c = '^' || c = '|' || c = '%' ||
    c = '\t' || c = '\n' || c = '\r' || decide (c.toNat = 0)

/-- Splits `scheme "://" rest`, requiring a nonempty alphabetic scheme. -/
def splitScheme : List Char → Option (List Char)
  | ':' :: '/' :: '/' :: rest => some rest
  | c :: rest => if c.isAlpha then splitScheme rest else none
  | [] => none

/-- Parses the optional `":" port` tail after a host: empty, or a colon
followed by (possibly empty) digits whose value is at most 65535. -/
def validPortTail : List Char → Bool
  | [] => true
  | ':' :: ds =>
    ds.all Char.isDigit &&
      decide ((ds.foldl (fun acc c => acc * 10 + (c.toNat - '0'.toNat)) 0) ≤ 65535)
  | _ => false

/-- Splits a bracketed IPv6 host `"[..." ++ "]"` from what follows it. -/
def splitBracketHost (acc : List Char) : List Char → Option (List Char × List Char)
  | [] => none
  | ']' :: rest => some (acc ++ [']'], rest)
  | c :: rest => splitBracketHost (acc ++ [c]) rest

/-- Model of `new URL(origin).hostname` for the origins this middleware
sees, with `none` for a constructor throw. -/
def parseOriginHostname (origin : String) : Option String :=
  match splitScheme origin.data with
  | none => none
  | some rest =>
    let hostPort := rest.takeWhile (fun c => c ≠ '/' ∧ c ≠ '?' ∧ c ≠ '#')
    match hostPort with
    | '[' :: inner =>
      match splitBracketHost ['['] inner with
      | none => none
      | some (host, tail) =>
        let body := host.drop 1 |>.dropLast
        if body ≠ [] ∧ body.all (fun c => c.isDigit ∨ ('a' ≤ c ∧ c ≤ 'f') ∨
            ('A' ≤ c ∧ c ≤ 'F') ∨ c = ':' ∨ c = '.') ∧
            validPortTail tail = true then
          some (String.mk (host.map Char.toLower))
        else none
    | _ =>
      let host := hostPort.takeWhile (fun c => c ≠ ':')
      let tail := hostPort.drop host.length
      if host ≠ [] ∧ host.all (fun c => !forbiddenHostChar c) ∧ validPortTail tail = true then
        some (String.mk (host.map Char.toLower))
      else none

/-! ## `cors-middleware.ts` : `isPrivateNetworkOrigin`, `validateOrigin` -/

/-- Embeds `hostname.slice(1, -1)`. -/
def sliceInner (s : String) : String := String.mk (s.data.drop 1 |>.dropLast)

/-- Embeds `CORSMiddleware.isPrivateNetworkOrigin(origin)`: parse the
origin (a throw means `false`), then test IPv4 private ranges, bracketed
IPv6 local prefixes, and the localhost names. -/
def isPrivateNetworkOrigin (origin : String) : Bool :=
  match parseOriginHostname origin with
  | none => false
  | some hostname =>
    if isIPv4PrivateRange hostname then true
    else if (hostname.data.head? == some '[') && (hostname.data.getLast? == some ']') &&
        (let ipv6 := sliceInner hostname
         List.isPrefixOf "::1".data ipv6.data || List.isPrefixOf "fc".data ipv6.data ||
           List.isPrefixOf "fd".data ipv6.data) then true
    else if hostname.data = "localhost".data ∨ hostname.data = "127.0.0.1".data ∨
        hostname.data = "::1".data then true
    else false

/-- `CORSValidationResult` from `cors-middleware.ts`. -/
structure CORSValidationResult where
  allowed : Bool
  origin : Option String := none
  reason : Option String := none
  deriving Repr, DecidableEq

/-- Embeds `CORSMiddleware.validateOrigin(origin)` for a middleware whose
configured pattern list is `origins`: an empty (falsy) origin is rejected;
otherwise the first matching pattern allows it; otherwise rejected. -/
def validateOrigin (origins : List String) (origin : String) : CORSValidationResult :=
  if origin.data.isEmpty then
    { allowed := false, reason := some "No origin header provided" }
  else if origins.any (fun allowedOrigin => matchesOriginPattern origin allowedOrigin) then
    { allowed := true, origin := some origin }
  else
    { allowed := false, origin := some origin,
      reason := some ("Origin " ++ origin ++ " not in allowed list") }

/-- The `origins` field of `DEFAULT_CORS_CONFIG` in `cors-middleware.ts`,
in source order. -/
def DEFAULT_CORS_ORIGINS : List String :=
  ["http://10.*", "https://10.*",
   "http://172.16.*", "https://172.16.*", "http://172.17.*", "https://172.17.*",
   "http://172.18.*", "https://172.18.*", "http://172.19.*", "https://172.19.*",
   "http://172.20.*", "https://172.20.*", "http://172.21.*", "https://172.21.*",
   "http://172.22.*", "https://172.22.*", "http://172.23.*", "https://172.23.*",
   "http://172.24.*", "https://172.24.*", "http://172.25.*", "https://172.25.*",
   "http://172.26.*", "https://172.26.*", "http://172.27.*", "https://172.27.*",
   "http://172.28.*", "https://172.28.*", "http://172.29.*", "https://172.29.*",
   "http://172.30.*", "https://172.30.*", "http://172.31.*", "https://172.31.*",
   "http://192.168.*", "https://192.168.*",
   "http://localhost:*", "https://localhost:*",
   "http://127.0.0.1:*", "https://127.0.0.1:*",
   "https://*.railway.app", "https://*.up.railway.app",
   "http://[::1]:*", "https://[::1]:*"]

/-- Embeds the `origins` field of the middleware built by
`createCORSMiddleware(envOrigins)`: when `envOrigins` is present and
nonempty, defaults followed by the environment origins; otherwise the
constructor's spread of `DEFAULT_CORS_CONFIG` leaves the defaults. -/
def createCORSMiddlewareOrigins (envOrigins : Option (List String)) : List String :=
  match envOrigins with
  | some l => if l.length > 0 then DEFAULT_CORS_ORIGINS ++ l else DEFAULT_CORS_ORIGINS
  | none => DEFAULT_CORS_ORIGINS

/-! ## `config.ts` : origin generation and merging -/

/-- The configuration fields of `ServerConfig` that origin merging reads. -/
structure ServerConfig where
  corsOrigins : Option (List String) := none
  allowPrivateNetworkAccess : Bool := false
  railwayInternalAccess : Bool := false
  deriving Repr, DecidableEq

/-- The private-network pattern block pushed by
`generatePrivateNetworkOrigins` when `allowPrivateNetworkAccess` is set. -/
def privateNetworkPatterns : List String :=
  ["http://10.*", "https://10.*",
   "http://172.16.*", "https://172.16.*", "http://172.17.*", "https://172.17.*",
   "http://172.18.*", "https://172.18.*", "http://172.19.*", "https://172.19.*",
   "http://172.20.*", "https://172.20.*", "http://172.21.*", "https://172.21.*",
   "http://172.22.*", "https://172.22.*", "http://172.23.*", "https://172.23.*",
   "http://172.24.*", "https://172.24.*", "http://172.25.*", "https://172.25.*",
   "http://172.26.*", "https://172.26.*", "http://172.27.*", "https://172.27.*",
   "http://172.28.*", "https://172.28.*", "http://172.29.*", "https://172.29.*",
   "http://172.30.*", "https://172.30.*", "http://172.31.*", "https://172.31.*",
   "http://192.168.*", "https://192.168.*",
   "http://localhost:*", "https://localhost:*",
   "http://127.0.0.1:*", "https://127.0.0.1:*",
   "http://[::1]:*", "https://[::1]:*"]

/-- Embeds `generatePrivateNetworkOrigins(config)`. -/
def generatePrivateNetworkOrigins (config : ServerConfig) : List String :=
  (if config.allowPrivateNetworkAccess then privateNetworkPatterns else []) ++
    (if config.railwayInternalAccess then
      ["https://*.railway.app", "https://*.up.railway.app",
       "http://*.railway.internal", "https://*.railway.internal"]
    else [])

/-- Worker for `jsSetDedup`: keeps elements not yet seen. -/
def jsSetDedupGo : List String → List String → List String
  | [], _ => []
  | x :: xs, seen =>
    if x ∈ seen then jsSetDedupGo xs seen else x :: jsSetDedupGo xs (seen ++ [x])

/-- Embeds `[...new Set(list)]`: deduplication keeping first occurrences
in insertion order. -/
def jsSetDedup (l : List String) : List String := jsSetDedupGo l []

/-- Embeds `getMergedCORSOrigins(config)`: configured origins (defaulting
to `[]`), then the generated private-network origins, deduplicated. -/
def getMergedCORSOrigins (config : ServerConfig) : List String :=
  let configuredOrigins := config.corsOrigins.getD []
  let privateNetworkOrigins := generatePrivateNetworkOrigins config
  jsSetDedup (configuredOrigins ++ privateNetworkOrigins)

/-! ## `network-utils.ts` : stack detection, strategy, bind cascade

The OS socket layer is an oracle.  A `listen` attempt either throws
synchronously (`Except.error`), or the socket later emits `error`, or it
emits `listening` with the address actually obtained.  The best-effort
`setIPv6Only(false)` call on the dual-stack candidate happens after
`listening` and, per the source, never affects the outcome. -/

/-- What a `server.listen` call can come back with. -/
inductive ListenOutcome where
  /-- The `listening` event fired; `server.address()` gave this
  address/port pair (or `null`, modelled `none`). -/
  | listening (actual : Option (String × Nat))
  /-- The `error` event fired with this message. -/
  | errored (e : String)
  deriving Repr, DecidableEq

/-- A socket-layer oracle: the outcome of attempting to listen on a given
address (the cascade binds every candidate on one fixed port). -/
abbrev BindWorld := String → Except String ListenOutcome

/-- `BindResult` from `network-utils.ts` (the opaque `server` handle is
not modelled). -/
structure BindResultM where
  success : Bool
  address : String
  port : Nat
  family : String
  error : Option String := none
  deriving Repr, DecidableEq

/-- `NetworkStackInfo` from `network-utils.ts`. -/
structure NetworkStackInfo where
  ipv4Available : Bool
  ipv6Available : Bool
  preferredStack : String
  deriving Repr, DecidableEq

/-- `NetworkConfig` from `config.ts` as `network-utils.ts` reads it. -/
structure NetworkConfig where
  preferIPv6 : Bool
  dualStack : Bool
  bindAddress : String
  port : Nat
  deriving Repr, DecidableEq

/-- Embeds the `preferredStack` computation of `detectNetworkStack`. -/
def preferredStackOf (ipv4Available ipv6Available : Bool) : String :=
  if ipv4Available && ipv6Available then "dual"
  else if ipv6Available then "ipv6"
  else if ipv4Available then "ipv4"
  else "ipv4"

/-- Embeds `tryBind(server, address, port, family)`: a synchronous throw
from `listen` is routed to `onError` by the `try`/`catch`; the `error`
event resolves a failure carrying the error; the `listening` event
resolves a success carrying `server.address()` (falling back to the
requested pair).  Every path resolves — the promise never rejects. -/
def tryBind (listen : Except String ListenOutcome) (address : String) (port : Nat)
    (family : String) : BindResultM :=
  match listen with
  | .error e => { success := false, address, port, family, error := some e }
  | .ok (.errored e) => { success := false, address, port, family, error := some e }
  | .ok (.listening actual) =>
    { success := true
      address := (actual.map Prod.fst).getD address
      port := (actual.map Prod.snd).getD port
      family }

/-- Embeds `tryBindWithLogging` (the wrapper only adds logging). -/
def tryBindWithLogging (listen : Except String ListenOutcome) (address : String)
    (port : Nat) (family : String) : BindResultM :=
  tryBind listen address port family

/-- Embeds `attemptBindingWithFallback(networkConfig, createServerFn)`:
try `'::'` (IPv6 dual-stack), then `'0.0.0.0'` (IPv4), then `'127.0.0.1'`,
returning the first success, else the last failure. -/
def attemptBindingWithFallback (world : BindWorld) (port : Nat) : BindResultM :=
  let result := tryBindWithLogging (world "::") "::" port "IPv6"
  if result.success then result
  else
    let result2 := tryBindWithLogging (world "0.0.0.0") "0.0.0.0" port "IPv4"
    if result2.success then result2
    else tryBindWithLogging (world "127.0.0.1") "127.0.0.1" port "IPv4"

/-- The sequence of `(address, family)` bind attempts
`attemptBindingWithFallback` performs (each attempt is logged by the
source before the next candidate is consulted). -/
def attemptedCandidates (world : BindWorld) (port : Nat) : List (String × String) :=
  let r1 := tryBind (world "::") "::" port "IPv6"
  if r1.success then [("::", "IPv6")]
  else
    let r2 := tryBind (world "0.0.0.0") "0.0.0.0" port "IPv4"
    if r2.success then [("::", "IPv6"), ("0.0.0.0", "IPv4")]
    else [("::", "IPv6"), ("0.0.0.0", "IPv4"), ("127.0.0.1", "IPv4")]

/-- The three binding strategies (the TypeScript union
`'ipv6-dual' | 'ipv4-only' | 'ipv6-only'`). -/
inductive BindingStrategy where
  | ipv6Dual
  | ipv4Only
  | ipv6Only
  deriving Repr, DecidableEq

/-- Embeds `determineBindingStrategy(networkConfig, stackInfo)`. -/
def determineBindingStrategy (networkConfig : NetworkConfig)
    (stackInfo : NetworkStackInfo) : BindingStrategy :=
  if networkConfig.dualStack && stackInfo.ipv6Available then .ipv6Dual
  else if networkConfig.preferIPv6 && stackInfo.ipv6Available then .ipv6Only
  else if stackInfo.ipv6Available && !stackInfo.ipv4Available then .ipv6Only
  else if stackInfo.ipv4Available then .ipv4Only
  else .ipv6Only

/-- Embeds `attemptBinding(strategy, networkConfig, createServerFn)` (the
`default: throw` branch is unreachable: the strategy type is exactly the
three-way union). -/
def attemptBinding (strategy : BindingStrategy) (world : BindWorld)
    (networkConfig : NetworkConfig) : BindResultM :=
  match strategy with
  | .ipv6Dual => attemptBindingWithFallback world networkConfig.port
  | .ipv6Only => tryBindWithLogging (world "::") "::" networkConfig.port "IPv6"
  | .ipv4Only => tryBindWithLogging (world "0.0.0.0") "0.0.0.0" networkConfig.port "IPv4"

/-! ## JSON values

A minimal JSON value type for the `/mcp` envelopes.  `JSON.stringify`
drops object fields holding `undefined`, so an "absent" field is simply a
missing key. -/

/-- JSON values. -/
inductive Json where
  | null
  | bool (b : Bool)
  | num (n : Int)
  | str (s : String)
  | arr (elems : List Json)
  | obj (fields : List (String × Json))

/-- Property read `j[k]` on a JSON value: `none` models JavaScript
`undefined` (absent key, or a primitive receiver). -/
def Json.getField : Json → String → Option Json
  | .obj fields, k => (fields.find? (fun f => f.1 = k)).map Prod.snd
  | _, _ => none

/-- Property write `j[k] = v` on a JSON object (replace or append). -/
def Json.setField : Json → String → Json → Json
  | .obj fields, k, v =>
    if fields.any (fun f => f.1 = k) then
      .obj (fields.map (fun f => if f.1 = k then (k, v) else f))
    else .obj (fields ++ [(k, v)])
  | j, _, _ => j

/-- JavaScript truthiness of a property-read result: `undefined`, `null`,
`false`, `0`, `NaN` and `''` are falsy. -/
def jsFalsy : Option Json → Bool
  | none => true
  | some .null => true
  | some (.bool b) => !b
  | some (.num n) => decide (n = 0)
  | some (.str s) => s.data.isEmpty
  | some (.arr _) => false
  | some (.obj _) => false

/-- Rendering of a JSON value inside a template literal
(`` `Method not found: ${request.method}` ``); only the string case is
exercised by the theorems below. -/
def jsDisplay : Json → String
  | .null => "null"
  | .bool b => cond b "true" "false"
  | .num n => toString n
  | .str s => s
  | .arr _ => ""
  | .obj _ => "[object Object]"

/-! ## `http-transport.ts` : the `/mcp` JSON-RPC bridge

The external MCP dispatch core (`this.mcpServer.request`) is an oracle
from a method name and the request's `params` to either a thrown error
message or a response value that the bridge relays verbatim. -/

/-- The external dispatch core boundary. -/
abbrev McpCore := String → Option Json → Except String Json

/-- The `result` object the bridge synthesizes for `initialize`. -/
def initializeResult : Json :=
  .obj [("protocolVersion", .str "2024-11-05"),
        ("capabilities", .obj [("tools", .obj [])]),
        ("serverInfo", .obj [("name", .str "mcp-server-gmail"),
                             ("version", .str "1.0.0")])]

/-- A field that `JSON.stringify` keeps only when the value is defined. -/
def optField (k : String) : Option Json → List (String × Json)
  | none => []
  | some v => [(k, v)]

/-- Embeds `processMcpRequest(request)`: `initialize` is answered
locally; `tools/list` and `tools/call` are forwarded to the core and the
core's response relayed verbatim; any other method gets the `-32601`
envelope; a throw from the core is caught and turned into the `-32603`
body `{error: {code, message, data}}` — which carries neither a `jsonrpc`
nor an `id` field. -/
def processMcpRequest (core : McpCore) (request : Json) : Json :=
  match request.getField "method" with
  | some (.str "initialize") =>
    .obj ([("jsonrpc", .str "2.0")] ++ optField "id" (request.getField "id") ++
      [("result", initializeResult)])
  | some (.str "tools/list") =>
    match core "tools/list" (request.getField "params") with
    | .ok response => response
    | .error e =>
      .obj [("error", .obj [("code", .num (-32603)), ("message", .str "Internal error"),
                            ("data", .str e)])]
  | some (.str "tools/call") =>
    match core "tools/call" (request.getField "params") with
    | .ok response => response
    | .error e =>
      .obj [("error", .obj [("code", .num (-32603)), ("message", .str "Internal error"),
                            ("data", .str e)])]
  | m =>
    .obj ([("jsonrpc", .str "2.0")] ++ optField "id" (request.getField "id") ++
      [("error", .obj [("code", .num (-32601)),
                       ("message", .str ("Method not found: " ++
                         (match m with | some v => jsDisplay v | none => "undefined")))])])

/-- Embeds `handleMcpRequest(req, res)` from the point where the body has
been read: `parsed` is the outcome of `JSON.parse` (`none` when it
throws).  A `null` body makes the `request.method` property read throw, so
the outer handler answers 500.  Otherwise a falsy `method` is a 400, an
absent `id` is normalized to `null`, and the `processMcpRequest` response
is returned with status 200. -/
def handleMcpRequest (core : McpCore) (parsed : Option Json) : Nat × Json :=
  match parsed with
  | none => (400, .obj [("error", .str "Invalid JSON in request body")])
  | some .null =>
    (500, .obj [("error", .str "Internal server error"),
                ("message", .str "Cannot read properties of null (reading 'method')")])
  | some mcpRequest =>
    if jsFalsy (mcpRequest.getField "method") then
      (400, .obj [("error", .str "Invalid MCP request format: missing method")])
    else
      let normalized :=
        if (mcpRequest.getField "id").isNone then mcpRequest.setField "id" .null
        else mcpRequest
      (200, processMcpRequest core normalized)

/-! ## `http-transport.ts` : `/health` aggregation

The sub-checks read the outside world (the filesystem, the network
probe); their inputs are collected in `HealthEnv`. -/

/-- A sub-check status string. -/
inductive Status where
  | healthy
  | degraded
  | unhealthy
  deriving Repr, DecidableEq

/-- The external facts the health sub-checks observe.  An `Option String`
field models the corresponding `try` block throwing. -/
structure HealthEnv where
  mcpPresent : Bool := true
  gmailError : Option String := none
  credentialsFileExists : Bool := true
  credError : Option String := none
  hasOAuthKeys : Bool := true
  hasCredentials : Bool := true
  networkError : Option String := none
  corsError : Option String := none
  originCount : Nat := 44
  deriving Repr, DecidableEq

/-- `checks.server.status` is the literal `'healthy'`. -/
def serverCheckStatus : Status := .healthy

/-- `checks.mcp.status`: healthy iff the MCP server object exists. -/
def mcpCheckStatus (env : HealthEnv) : Status :=
  if env.mcpPresent then .healthy else .unhealthy

/-- Embeds `checkGmailConnectivity`: healthy when the credentials file
exists, degraded when it does not, unhealthy when the check throws. -/
def checkGmailConnectivity (env : HealthEnv) : Status :=
  match env.gmailError with
  | some _ => .unhealthy
  | none => if env.credentialsFileExists then .healthy else .degraded

/-- Embeds `checkCredentialStatus`: healthy with OAuth keys and user
credentials, degraded with only OAuth keys, unhealthy otherwise or on a
throw. -/
def checkCredentialStatus (env : HealthEnv) : Status :=
  match env.credError with
  | some _ => .unhealthy
  | none =>
    if env.hasOAuthKeys && env.hasCredentials then .healthy
    else if env.hasOAuthKeys then .degraded
    else .unhealthy

/-- Embeds `checkNetworkHealth`: healthy unless `detectNetworkStack`
throws. -/
def checkNetworkHealth (env : HealthEnv) : Status :=
  match env.networkError with
  | some _ => .unhealthy
  | none => .healthy

/-- Embeds `checkCORSConfiguration`: healthy when at least one origin
pattern is configured, degraded when none, unhealthy on a throw. -/
def checkCORSConfiguration (env : HealthEnv) : Status :=
  match env.corsError with
  | some _ => .unhealthy
  | none => if env.originCount > 0 then .healthy else .degraded

/-- `Object.values(checks)` in the order `getHealthStatus` inserts the
sub-checks: server, mcp, gmail, credentials, network, cors. -/
def healthChecks (env : HealthEnv) : List Status :=
  [serverCheckStatus, mcpCheckStatus env, checkGmailConnectivity env,
   checkCredentialStatus env, checkNetworkHealth env, checkCORSConfiguration env]

/-- Embeds the overall-status computation of `getHealthStatus`:
`'unhealthy'` when some sub-check is unhealthy, else `'degraded'` when
some sub-check is degraded, else the initial `'healthy'`. -/
def getHealthStatusOverall (env : HealthEnv) : Status :=
  let allChecks := healthChecks env
  if allChecks.any (fun check => check == .unhealthy) then .unhealthy
  else if allChecks.any (fun check => check == .degraded) then .degraded
  else .healthy

/-- Embeds the status-code choice in `handleHealthCheck`:
`healthStatus.status === 'healthy' ? 200 : 503`. -/
def healthStatusCode (env : HealthEnv) : Nat :=
  if getHealthStatusOverall env = .healthy then 200 else 503

/-! ## `server-state.js` : transport supervision

Connecting the stdio transport and starting the HTTP transport are
fallible external operations, passed in as `Except` outcomes. -/

/-- The TypeScript union `'stdio' | 'http' | 'dual'`. -/
inductive ServerMode where
  | stdio
  | http
  | dual
  deriving Repr, DecidableEq

/-- The observable fields of `ServerState`: which transports exist in
`this.transports`, and `this.isHealthy`. -/
structure ServerStateM where
  stdioTransport : Bool := false
  httpTransport : Bool := false
  isHealthy : Bool := false
  deriving Repr, DecidableEq

/-- Embeds `initializeStdioTransport`: the transport object is stored,
then `mcpServer.connect` may fail. -/
def initializeStdioTransport (connect : Except String Unit) (s : ServerStateM) :
    Except String Unit × ServerStateM :=
  (connect, { s with stdioTransport := true })

/-- Embeds `initializeHttpTransport`: the transport object is stored,
then `start()` may fail. -/
def initializeHttpTransport (start : Except String Unit) (s : ServerStateM) :
    Except String Unit × ServerStateM :=
  (start, { s with httpTransport := true })

/-- Embeds the `initialize()` method of `ServerState`: dispatch on `config.mode`; in
`dual` mode the stdio transport is initialized first and a failure there
propagates before the HTTP transport is touched; `isHealthy` is set only
after the whole switch succeeds, and any error is rethrown to the
caller. -/
def ServerState.initializeTransports (mode : ServerMode) (stdioConnect httpStart : Except String Unit)
    (s : ServerStateM) : Except String Unit × ServerStateM :=
  match mode with
  | .stdio =>
    let (r, s') := initializeStdioTransport stdioConnect s
    match r with
    | .ok _ => (.ok (), { s' with isHealthy := true })
    | .error e => (.error e, s')
  | .http =>
    let (r, s') := initializeHttpTransport httpStart s
    match r with
    | .ok _ => (.ok (), { s' with isHealthy := true })
    | .error e => (.error e, s')
  | .dual =>
    let (r1, s1) := initializeStdioTransport stdioConnect s
    match r1 with
    | .error e => (.error e, s1)
    | .ok _ =>
      let (r2, s2) := initializeHttpTransport httpStart s1
      match r2 with
      | .error e => (.error e, s2)
      | .ok _ => (.ok (), { s2 with isHealthy := true })

/-- The transports `mode` requires all initialized without error. -/
def requiredTransportsOk (mode : ServerMode) (stdioConnect httpStart : Except String Unit) :
    Prop :=
  match mode with
  | .stdio => stdioConnect = .ok ()
  | .http => httpStart = .ok ()
  | .dual => stdioConnect = .ok () ∧ httpStart = .ok ()

/-! ## Helper lemmas -/

theorem splitDot_no_dot (l : List Char) (h : '.' ∉ l) : splitDot l = [l] := by
  induction l with
  | nil => rfl
  | cons c rest ih =>
    have hc : c ≠ '.' := fun hc => h (hc ▸ List.mem_cons_self c rest)
    have hrest : '.' ∉ rest := fun hm => h (List.mem_cons_of_mem c hm)
    simp [splitDot, hc, ih hrest]

theorem splitDot_append (l1 l2 : List Char) (h : '.' ∉ l1) :
    splitDot (l1 ++ '.' :: l2) = l1 :: splitDot l2 := by
  induction l1 with
  | nil => simp [splitDot]
  | cons c rest ih =>
    have hc : c ≠ '.' := fun hc => h (hc ▸ List.mem_cons_self c rest)
    have hrest : '.' ∉ rest := fun hm => h (List.mem_cons_of_mem c hm)
    simp [splitDot, hc, ih hrest]

/-- Splitting a dotted quad whose four chunks are dot-free. -/
theorem splitDot_quad (p q r u : List Char) (hp : '.' ∉ p) (hq : '.' ∉ q)
    (hr : '.' ∉ r) (hu : '.' ∉ u) :
    splitDot (p ++ '.' :: (q ++ '.' :: (r ++ '.' :: u))) = [p, q, r, u] := by
  rw [splitDot_append p _ hp, splitDot_append q _ hq, splitDot_append r _ hr,
    splitDot_no_dot u hu]

theorem find?_append_of_none {α} (p : α → Bool) (l1 l2 : List α)
    (h : l1.find? p = none) : (l1 ++ l2).find? p = l2.find? p := by
  induction l1 with
  | nil => rfl
  | cons a rest ih =>
    cases hpa : p a with
    | true => simp [List.find?, hpa] at h
    | false =>
      simp only [List.find?, hpa, List.cons_append] at h ⊢
      exact ih h

theorem tryBind_family (listen : Except String ListenOutcome) (a : String) (p : Nat)
    (f : String) : (tryBind listen a p f).family = f := by
  cases listen with
  | error e => rfl
  | ok o => cases o <;> rfl

theorem tryBind_failed_error_isSome (listen : Except String ListenOutcome) (a : String)
    (p : Nat) (f : String) (h : (tryBind listen a p f).success = false) :
    (tryBind listen a p f).error.isSome = true := by
  cases listen with
  | error e => rfl
  | ok o =>
    cases o with
    | errored e => rfl
    | listening actual => simp [tryBind] at h

/-! ## C5 — a public DNS host allowed by the private-network wildcards -/

/-- C5: the origin `http://10.evil.com` is well formed (its URL host is
the public DNS name `10.evil.com`), matches the default wildcard pattern
`http://10.*` textually, so `validateOrigin` under the default
configuration allows it, while `isPrivateNetworkOrigin` is false for it:
the wildcards match a textual prefix of the origin string, not a parsed
private IP address. -/
theorem public_host_matches_private_wildcard :
    parseOriginHostname "http://10.evil.com" = some "10.evil.com" ∧
    "http://10.*" ∈ DEFAULT_CORS_ORIGINS ∧
    matchesOriginPattern "http://10.evil.com" "http://10.*" = true ∧
    (validateOrigin DEFAULT_CORS_ORIGINS "http://10.evil.com").allowed = true ∧
    isPrivateNetworkOrigin "http://10.evil.com" = false :=
  ⟨by decide, by decide, by decide, by decide, by decide⟩

/-! ## C6 — RFC1918 boundaries of `isIPv4PrivateRange` -/

/-- C6: `isIPv4PrivateRange` hits exactly the stated RFC1918 boundaries:
`10.0.0.0` and `10.255.255.255` are private; `172.15.255.255` and
`172.32.0.0` are not; `172.16.0.0` and `172.31.255.255` are; every host
`192.168.x.y` (octet chunks `x`, `y`) is private; every host under
`192.167` or `192.169` is not. -/
theorem ipv4_private_range_boundaries :
    isIPv4PrivateRange "10.0.0.0" = true ∧
    isIPv4PrivateRange "10.255.255.255" = true ∧
    isIPv4PrivateRange "172.15.255.255" = false ∧
    isIPv4PrivateRange "172.32.0.0" = false ∧
    isIPv4PrivateRange "172.16.0.0" = true ∧
    isIPv4PrivateRange "172.31.255.255" = true ∧
    (∀ x y : String, '.' ∉ x.data → '.' ∉ y.data →
      ∀ vx : Int, jsNumber x.data = some vx → 0 ≤ vx → vx ≤ 255 →
      ∀ vy : Int, jsNumber y.data = some vy → 0 ≤ vy → vy ≤ 255 →
        isIPv4PrivateRange ("192.168." ++ x ++ "." ++ y) = true) ∧
    (∀ x y : String, '.' ∉ x.data → '.' ∉ y.data →
      isIPv4PrivateRange ("192.167." ++ x ++ "." ++ y) = false ∧
      isIPv4PrivateRange ("192.169." ++ x ++ "." ++ y) = false) := by
  refine ⟨by decide, by decide, by decide, by decide, by decide, by decide, ?_, ?_⟩
  · intro x y hx hy vx hvx hvx0 hvx255 vy hvy hvy0 hvy255
    have hdata : ("192.168." ++ x ++ "." ++ y).data =
        "192".data ++ '.' :: ("168".data ++ '.' :: (x.data ++ '.' :: y.data)) := by
      simp [String.data_append, List.append_assoc]
    have hsxy : splitDot (x.data ++ '.' :: y.data) = [x.data, y.data] := by
      rw [splitDot_append _ _ hx, splitDot_no_dot _ hy]
    have h1 : decide (vx < 0) = false := by simp [hvx0]
    have h2 : decide (vx > 255) = false := by simp; omega
    have h3 : decide (vy < 0) = false := by simp [hvy0]
    have h4 : decide (vy > 255) = false := by simp; omega
    unfold isIPv4PrivateRange
    rw [hdata, splitDot_append _ _ (by decide), splitDot_append _ _ (by decide), hsxy]
    simp only [List.map_cons, List.map_nil, hvx, hvy]
    have hj192 : jsNumber "192".data = some 192 := by decide
    have hj168 : jsNumber "168".data = some 168 := by decide
    rw [hj192, hj168]
    simp [octetBad, h1, h2, h3, h4]
  · intro x y hx hy
    have hsxy : splitDot (x.data ++ '.' :: y.data) = [x.data, y.data] := by
      rw [splitDot_append _ _ hx, splitDot_no_dot _ hy]
    have hdata167 : ("192.167." ++ x ++ "." ++ y).data =
        "192".data ++ '.' :: ("167".data ++ '.' :: (x.data ++ '.' :: y.data)) := by
      simp [String.data_append, List.append_assoc]
    have hdata169 : ("192.169." ++ x ++ "." ++ y).data =
        "192".data ++ '.' :: ("169".data ++ '.' :: (x.data ++ '.' :: y.data)) := by
      simp [String.data_append, List.append_assoc]
    have hj192 : jsNumber "192".data = some 192 := by decide
    have hj167 : jsNumber "167".data = some 167 := by decide
    have hj169 : jsNumber "169".data = some 169 := by decide
    constructor
    · unfold isIPv4PrivateRange
      rw [hdata167, splitDot_append _ _ (by decide), splitDot_append _ _ (by decide), hsxy]
      simp only [List.map_cons, List.map_nil, hj192, hj167]
      split
      · rfl
      · rfl
    · unfold isIPv4PrivateRange
      rw [hdata169, splitDot_append _ _ (by decide), splitDot_append _ _ (by decide), hsxy]
      simp only [List.map_cons, List.map_nil, hj192, hj169]
      split
      · rfl
      · rfl

/-- Witness for the quantified parts of `ipv4_private_range_boundaries`
at the concrete octet chunks `25` and `108`. -/
theorem ipv4_private_range_boundaries_witness :
    isIPv4PrivateRange ("192.168." ++ "25" ++ "." ++ "108") = true ∧
    isIPv4PrivateRange ("192.167." ++ "25" ++ "." ++ "108") = false :=
  ⟨ipv4_private_range_boundaries.2.2.2.2.2.2.1 "25" "108" (by decide) (by decide)
      25 (by decide) (by decide) (by decide) 108 (by decide) (by decide) (by decide),
    (ipv4_private_range_boundaries.2.2.2.2.2.2.2 "25" "108" (by decide) (by decide)).1⟩

/-! ## C4 — configured origins extend the defaults -/

/-- C4: for every origin list handed to `createCORSMiddleware` (also the
empty list `getMergedCORSOrigins` produces when both access flags are
off and nothing is configured), the resulting pattern set starts with
`DEFAULT_CORS_CONFIG.origins`, so every origin allowed under the default
configuration stays allowed. -/
theorem configured_origins_extend_defaults :
    (∀ envOrigins, DEFAULT_CORS_ORIGINS <+: createCORSMiddlewareOrigins envOrigins) ∧
    (∀ envOrigins origin,
      (validateOrigin DEFAULT_CORS_ORIGINS origin).allowed = true →
      (validateOrigin (createCORSMiddlewareOrigins envOrigins) origin).allowed = true) ∧
    (∀ config : ServerConfig, config.corsOrigins = none →
      config.allowPrivateNetworkAccess = false → config.railwayInternalAccess = false →
      getMergedCORSOrigins config = []) := by
  have hpre : ∀ envOrigins, DEFAULT_CORS_ORIGINS <+: createCORSMiddlewareOrigins envOrigins := by
    intro envOrigins
    cases envOrigins with
    | none => exact List.prefix_refl _
    | some l =>
      by_cases hl : l.length > 0
      · simp only [createCORSMiddlewareOrigins, hl, if_pos]
        exact List.prefix_append DEFAULT_CORS_ORIGINS l
      · simp [createCORSMiddlewareOrigins, hl]
  refine ⟨hpre, ?_, ?_⟩
  · intro envOrigins origin h
    unfold validateOrigin at h ⊢
    by_cases hempty : origin.data.isEmpty
    · simp [hempty] at h
    · simp only [hempty, if_false] at h ⊢
      by_cases hany : DEFAULT_CORS_ORIGINS.any (fun p => matchesOriginPattern origin p)
      · obtain ⟨pat, hmem, hmatch⟩ := List.any_eq_true.mp hany
        have hmem' : pat ∈ createCORSMiddlewareOrigins envOrigins :=
          (hpre envOrigins).subset hmem
        simp [List.any_eq_true.mpr ⟨pat, hmem', hmatch⟩]
      · simp [hany] at h
  · intro config hc hp hr
    simp [getMergedCORSOrigins, generatePrivateNetworkOrigins, hc, hp, hr, jsSetDedup,
      jsSetDedupGo]

/-- Witness for `configured_origins_extend_defaults`: a middleware built
with one extra configured origin still allows a default private-network
origin, and the all-flags-off merge is empty. -/
theorem configured_origins_extend_defaults_witness :
    (validateOrigin (createCORSMiddlewareOrigins (some ["https://app.example.com"]))
      "http://192.168.1.50:4000").allowed = true ∧
    getMergedCORSOrigins
      { corsOrigins := none, allowPrivateNetworkAccess := false,
        railwayInternalAccess := false } = [] :=
  ⟨configured_origins_extend_defaults.2.1 (some ["https://app.example.com"])
      "http://192.168.1.50:4000" (by decide),
    configured_origins_extend_defaults.2.2 _ rfl rfl rfl⟩

/-! ## C3 — malformed origins: never private, but still pattern-matchable -/

/-- C3 counterexample: the origin `http://10. evil` cannot be parsed as a
URL (a space is a forbidden host character, so `new URL` throws), yet the
default wildcard pattern `http://10.*` matches it textually and
`validateOrigin` allows it — refuting the claim that an unparsable origin
matches no configured pattern and is always rejected. -/
theorem c3_malformed_origin_matches_pattern :
    parseOriginHostname "http://10. evil" = none ∧
    isPrivateNetworkOrigin "http://10. evil" = false ∧
    "http://10.*" ∈ DEFAULT_CORS_ORIGINS ∧
    matchesOriginPattern "http://10. evil" "http://10.*" = true ∧
    (validateOrigin DEFAULT_CORS_ORIGINS "http://10. evil").allowed = true :=
  ⟨by decide, by decide, by decide, by decide, by decide⟩

/-- C3 amended: an origin that cannot be parsed as a URL is never private
(`isPrivateNetworkOrigin` fails closed to `false`), but pattern matching
is purely textual, so such an origin can still match a configured
wildcard pattern and be allowed by `validateOrigin`. -/
theorem malformed_origin_never_private :
    (∀ origin, parseOriginHostname origin = none → isPrivateNetworkOrigin origin = false) ∧
    (∃ origin pattern, parseOriginHostname origin = none ∧ pattern ∈ DEFAULT_CORS_ORIGINS ∧
      matchesOriginPattern origin pattern = true ∧
      (validateOrigin DEFAULT_CORS_ORIGINS origin).allowed = true) := by
  constructor
  · intro origin h
    unfold isPrivateNetworkOrigin
    rw [h]
  · exact ⟨"http://10. bad", "http://10.*", by decide, by decide, by decide, by decide⟩

/-- Witness for `malformed_origin_never_private` at the concrete
unparsable origin `plain text`. -/
theorem malformed_origin_never_private_witness :
    parseOriginHostname "plain text" = none ∧
    isPrivateNetworkOrigin "plain text" = false :=
  ⟨by decide, malformed_origin_never_private.1 "plain text" (by decide)⟩

/-! ## C1 — health aggregation and the `/health` status code -/

/-- C1 counterexample: with every sub-check fine except the Gmail
credentials file missing, the aggregate is `degraded` and
`handleHealthCheck` answers 503 — refuting the claim that a degraded
aggregate is served with HTTP 200. -/
theorem c1_degraded_health_returns_503 :
    getHealthStatusOverall { credentialsFileExists := false } = Status.degraded ∧
    healthStatusCode { credentialsFileExists := false } = 503 :=
  ⟨by decide, by decide⟩

/-- C1 amended: the overall `/health` status is `unhealthy` when any
sub-check is unhealthy, else `degraded` when any sub-check is degraded,
else `healthy` — but the HTTP status code is 200 only when the overall
status is `healthy`, and 503 when it is `degraded` or `unhealthy`. -/
theorem health_aggregation_and_status_code (env : HealthEnv) :
    (getHealthStatusOverall env = Status.unhealthy ↔ Status.unhealthy ∈ healthChecks env) ∧
    (getHealthStatusOverall env = Status.degraded ↔
      (Status.unhealthy ∉ healthChecks env ∧ Status.degraded ∈ healthChecks env)) ∧
    (getHealthStatusOverall env = Status.healthy ↔
      (Status.unhealthy ∉ healthChecks env ∧ Status.degraded ∉ healthChecks env)) ∧
    (healthStatusCode env = 200 ↔ getHealthStatusOverall env = Status.healthy) ∧
    (healthStatusCode env = 503 ↔ getHealthStatusOverall env ≠ Status.healthy) := by
  have hmem : ∀ s : Status, ((healthChecks env).any (fun check => check == s)) = true ↔
      s ∈ healthChecks env := by
    intro s
    rw [List.any_eq_true]
    constructor
    · rintro ⟨x, hx, hbeq⟩
      exact (beq_iff_eq.mp hbeq) ▸ hx
    · intro hs
      exact ⟨s, hs, beq_iff_eq.mpr rfl⟩
  simp only [getHealthStatusOverall, healthStatusCode]
  by_cases h1 : ((healthChecks env).any (fun check => check == Status.unhealthy)) = true
  · have hu : Status.unhealthy ∈ healthChecks env := (hmem Status.unhealthy).mp h1
    simp [h1, hu]
  · have hnu : Status.unhealthy ∉ healthChecks env := fun hm => h1 ((hmem _).mpr hm)
    by_cases h2 : ((healthChecks env).any (fun check => check == Status.degraded)) = true
    · have hd : Status.degraded ∈ healthChecks env := (hmem Status.degraded).mp h2
      simp [h1, h2, hnu, hd]
    · have hnd : Status.degraded ∉ healthChecks env := fun hm => h2 ((hmem _).mpr hm)
      simp [h1, h2, hnu, hnd]

/-! ## C7 — the dual-stack cascade and its order -/

/-- C7: with dual-stack requested and both families available, the
selected strategy is `ipv6-dual`; the cascade attempts `'::'` first, and
on its failure attempts `'0.0.0.0'`, returning that outcome (family
`IPv4`) when it succeeds; the attempts are always an initial prefix of
`['::', '0.0.0.0', '127.0.0.1']` in exactly that order, and all of it
when the first two fail. -/
theorem dual_stack_cascade_order (networkConfig : NetworkConfig)
    (stackInfo : NetworkStackInfo) (world : BindWorld)
    (hdual : networkConfig.dualStack = true) (_h4 : stackInfo.ipv4Available = true)
    (h6 : stackInfo.ipv6Available = true) :
    determineBindingStrategy networkConfig stackInfo = BindingStrategy.ipv6Dual ∧
    attemptBinding BindingStrategy.ipv6Dual world networkConfig =
      attemptBindingWithFallback world networkConfig.port ∧
    (attemptedCandidates world networkConfig.port).head? = some ("::", "IPv6") ∧
    attemptedCandidates world networkConfig.port <+:
      [("::", "IPv6"), ("0.0.0.0", "IPv4"), ("127.0.0.1", "IPv4")] ∧
    ((tryBind (world "::") "::" networkConfig.port "IPv6").success = false →
      ("0.0.0.0", "IPv4") ∈ attemptedCandidates world networkConfig.port ∧
      ((tryBind (world "0.0.0.0") "0.0.0.0" networkConfig.port "IPv4").success = true →
        attemptBindingWithFallback world networkConfig.port =
          tryBind (world "0.0.0.0") "0.0.0.0" networkConfig.port "IPv4" ∧
        (attemptBindingWithFallback world networkConfig.port).family = "IPv4")) ∧
    ((tryBind (world "::") "::" networkConfig.port "IPv6").success = false →
      (tryBind (world "0.0.0.0") "0.0.0.0" networkConfig.port "IPv4").success = false →
      attemptedCandidates world networkConfig.port =
        [("::", "IPv6"), ("0.0.0.0", "IPv4"), ("127.0.0.1", "IPv4")]) := by
  refine ⟨by simp [determineBindingStrategy, hdual, h6], rfl, ?_, ?_, ?_, ?_⟩
  · by_cases hr1 : (tryBind (world "::") "::" networkConfig.port "IPv6").success = true <;>
      by_cases hr2 :
          (tryBind (world "0.0.0.0") "0.0.0.0" networkConfig.port "IPv4").success = true <;>
        simp [attemptedCandidates, hr1, hr2]
  · by_cases hr1 : (tryBind (world "::") "::" networkConfig.port "IPv6").success = true <;>
      by_cases hr2 :
          (tryBind (world "0.0.0.0") "0.0.0.0" networkConfig.port "IPv4").success = true <;>
        simp [attemptedCandidates, hr1, hr2, List.prefix_iff_eq_take]
  · intro hfail1
    by_cases hr2 :
        (tryBind (world "0.0.0.0") "0.0.0.0" networkConfig.port "IPv4").success = true
    · refine ⟨by simp [attemptedCandidates, hfail1, hr2], fun _ => ⟨?_, ?_⟩⟩
      · simp [attemptBindingWithFallback, tryBindWithLogging, hfail1, hr2]
      · simp [attemptBindingWithFallback, tryBindWithLogging, hfail1, hr2, tryBind_family]
    · exact ⟨by simp [attemptedCandidates, hfail1, hr2], fun hs => absurd hs hr2⟩
  · intro hfail1 hfail2
    simp [attemptedCandidates, hfail1, hfail2]

/-- Witness for `dual_stack_cascade_order`: a world where `'::'` fails
and `'0.0.0.0'` succeeds yields an IPv4 outcome after attempting both. -/
theorem dual_stack_cascade_order_witness :
    determineBindingStrategy
        { preferIPv6 := true, dualStack := true, bindAddress := "::", port := 8080 }
        { ipv4Available := true, ipv6Available := true, preferredStack := "dual" } =
      BindingStrategy.ipv6Dual ∧
    (attemptBindingWithFallback
        (fun a => if a = "::" then Except.ok (ListenOutcome.errored "EADDRNOTAVAIL")
                  else Except.ok (ListenOutcome.listening none)) 8080).family = "IPv4" ∧
    attemptedCandidates
        (fun a => if a = "::" then Except.ok (ListenOutcome.errored "EADDRNOTAVAIL")
                  else Except.ok (ListenOutcome.listening none)) 8080 =
      [("::", "IPv6"), ("0.0.0.0", "IPv4")] := by
  have h := dual_stack_cascade_order
    { preferIPv6 := true, dualStack := true, bindAddress := "::", port := 8080 }
    { ipv4Available := true, ipv6Available := true, preferredStack := "dual" }
    (fun a => if a = "::" then Except.ok (ListenOutcome.errored "EADDRNOTAVAIL")
              else Except.ok (ListenOutcome.listening none)) rfl rfl rfl
  exact ⟨h.1, ((h.2.2.2.2.1 (by decide)).2 (by decide)).2, by decide⟩

/-! ## C8 — the bind cascade never throws -/

/-- C8: `tryBind` converts a synchronous `listen` throw into a failure
result (it never rethrows), every failed `tryBind` result carries a
non-null error, and when all three cascade candidates fail
`attemptBindingWithFallback` returns the last candidate's failure result,
with `success = false` and that candidate's non-null error.  (The
candidate list in this code is the fixed, non-empty cascade
`['::', '0.0.0.0', '127.0.0.1']`, so an empty candidate list cannot
arise.) -/
theorem bind_cascade_never_throws :
    (∀ (e address : String) (port : Nat) (family : String),
      tryBind (Except.error e) address port family =
        { success := false, address, port, family, error := some e }) ∧
    (∀ (listen : Except String ListenOutcome) (a : String) (p : Nat) (f : String),
      (tryBind listen a p f).success = false → (tryBind listen a p f).error.isSome = true) ∧
    (∀ (world : BindWorld) (port : Nat),
      (tryBind (world "::") "::" port "IPv6").success = false →
      (tryBind (world "0.0.0.0") "0.0.0.0" port "IPv4").success = false →
      (tryBind (world "127.0.0.1") "127.0.0.1" port "IPv4").success = false →
      attemptBindingWithFallback world port =
        tryBind (world "127.0.0.1") "127.0.0.1" port "IPv4" ∧
      (attemptBindingWithFallback world port).success = false ∧
      (attemptBindingWithFallback world port).error =
        (tryBind (world "127.0.0.1") "127.0.0.1" port "IPv4").error ∧
      (attemptBindingWithFallback world port).error.isSome = true) := by
  refine ⟨fun e address port family => rfl, tryBind_failed_error_isSome, ?_⟩
  intro world port hf1 hf2 hf3
  have heq : attemptBindingWithFallback world port =
      tryBind (world "127.0.0.1") "127.0.0.1" port "IPv4" := by
    simp [attemptBindingWithFallback, tryBindWithLogging, hf1, hf2]
  exact ⟨heq, heq ▸ hf3, heq ▸ rfl, heq ▸ tryBind_failed_error_isSome _ _ _ _ hf3⟩

/-- Witness for `bind_cascade_never_throws`: a world where every listen
attempt reports `EACCES` produces a failed result carrying that error. -/
theorem bind_cascade_never_throws_witness :
    attemptBindingWithFallback (fun _ => Except.ok (ListenOutcome.errored "EACCES")) 9090 =
      { success := false, address := "127.0.0.1", port := 9090, family := "IPv4",
        error := some "EACCES" } ∧
    (attemptBindingWithFallback (fun _ => Except.ok (ListenOutcome.errored "EACCES"))
      9090).error.isSome = true := by
  have h := bind_cascade_never_throws.2.2
    (fun _ => Except.ok (ListenOutcome.errored "EACCES")) 9090 (by decide) (by decide)
    (by decide)
  exact ⟨h.1, h.2.2.2⟩

/-! ## C10 — supervisor initialization and health -/

/-- C10: starting from a fresh `ServerState`, `initialize` leaves
`isHealthy = true` exactly when every transport the mode requires came up
without error; a failure propagates as the result and leaves
`isHealthy = false`; and in `dual` mode a stdio failure returns before
the HTTP transport is ever created (the final state and result are a
fixed value independent of the HTTP start outcome, with
`httpTransport = false`). -/
theorem server_state_initialize_health (mode : ServerMode)
    (stdioConnect httpStart : Except String Unit) :
    ((ServerState.initializeTransports mode stdioConnect httpStart {}).2.isHealthy = true ↔
      requiredTransportsOk mode stdioConnect httpStart) ∧
    ((ServerState.initializeTransports mode stdioConnect httpStart {}).1 = Except.ok () ↔
      requiredTransportsOk mode stdioConnect httpStart) ∧
    (∀ e, (ServerState.initializeTransports mode stdioConnect httpStart {}).1 = Except.error e →
      (ServerState.initializeTransports mode stdioConnect httpStart {}).2.isHealthy = false) ∧
    (∀ e, mode = ServerMode.dual → stdioConnect = Except.error e →
      ServerState.initializeTransports mode stdioConnect httpStart {} =
        (Except.error e,
         { stdioTransport := true, httpTransport := false, isHealthy := false })) := by
  cases mode <;> rcases stdioConnect with _ | ⟨⟩ <;> rcases httpStart with _ | ⟨⟩ <;>
    simp [ServerState.initializeTransports, initializeStdioTransport, initializeHttpTransport,
      requiredTransportsOk]

/-- Witness for `server_state_initialize_health`: in `dual` mode with the
stdio connect failing, the error propagates, the state is unhealthy, and
the HTTP transport was never created. -/
theorem server_state_initialize_health_witness :
    ServerState.initializeTransports ServerMode.dual (Except.error "stdio down") (Except.ok ()) {} =
      (Except.error "stdio down",
       { stdioTransport := true, httpTransport := false, isHealthy := false }) :=
  (server_state_initialize_health ServerMode.dual (Except.error "stdio down")
    (Except.ok ())).2.2.2 "stdio down" rfl rfl

/-! ## Shared facts about the `/mcp` envelopes -/

theorem find?_append_left {α} (p : α → Bool) (l1 l2 : List α) (v : α)
    (h : l1.find? p = some v) : (l1 ++ l2).find? p = some v := by
  induction l1 with
  | nil => simp [List.find?] at h
  | cons a rest ih =>
    cases hpa : p a with
    | true =>
      simp only [List.find?, hpa] at h
      simp only [List.cons_append, List.find?, hpa]
      exact h
    | false =>
      simp only [List.find?, hpa] at h
      simp only [List.cons_append, List.find?, hpa]
      exact ih h

/-- An unrecognized method (any value that is not one of the three
handled method strings) lands in the `default:` branch and yields the
full `-32601` envelope, carrying the request's `id`. -/
theorem processMcpRequest_unrecognized (core : McpCore) (request : Json) (idv m : Json)
    (hid : request.getField "id" = some idv) (hm : request.getField "method" = some m)
    (hnot : ∀ s, m = Json.str s → s ∉ ["initialize", "tools/list", "tools/call"]) :
    processMcpRequest core request =
      Json.obj [("jsonrpc", Json.str "2.0"), ("id", idv),
        ("error", Json.obj [("code", Json.num (-32601)),
          ("message", Json.str ("Method not found: " ++ jsDisplay m))])] := by
  unfold processMcpRequest
  rw [hm, hid]
  cases m with
  | str s =>
    have hs := hnot s rfl
    simp only [List.mem_cons, List.not_mem_nil, not_or] at hs
    obtain ⟨h1, h2, h3⟩ := hs
    simp [h1, h2, h3, optField, jsDisplay]
  | null => simp [optField]
  | bool b => simp [optField]
  | num n => simp [optField]
  | arr elems => simp [optField]
  | obj fields => simp [optField]

/-- The bridge's local `initialize` response, carrying the request's
`id`. -/
theorem processMcpRequest_handshake (core : McpCore) (request : Json) (idv : Json)
    (hid : request.getField "id" = some idv)
    (hm : request.getField "method" = some (Json.str "initialize")) :
    processMcpRequest core request =
      Json.obj [("jsonrpc", Json.str "2.0"), ("id", idv),
        ("result", initializeResult)] := by
  unfold processMcpRequest
  rw [hm, hid]
  simp [optField]

/-- A throw from the external core on a forwarded method is converted
into the bare `{error: {code: -32603, ...}}` body. -/
theorem processMcpRequest_core_error (core : McpCore) (request : Json) (e : String)
    (hm : request.getField "method" = some (Json.str "tools/list") ∨
      request.getField "method" = some (Json.str "tools/call"))
    (hcore : ∀ method, core method (request.getField "params") = Except.error e) :
    processMcpRequest core request =
      Json.obj [("error", Json.obj [("code", Json.num (-32603)),
        ("message", Json.str "Internal error"), ("data", Json.str e)])] := by
  unfold processMcpRequest
  rcases hm with hm | hm <;> rw [hm] <;> simp [hcore]

/-- Normalizing an absent `id` on an object envelope appends
`("id", null)`, so the normalized envelope's `id` is `null`. -/
theorem setField_id_null_getField (fields : List (String × Json))
    (hid : (Json.obj fields).getField "id" = none) :
    ((Json.obj fields).setField "id" Json.null).getField "id" = some Json.null := by
  have hfind : fields.find? (fun f => f.1 = "id") = none := by
    simpa [Json.getField, Option.map_eq_none'] using hid
  have hany : fields.any (fun f => f.1 = "id") = false := by
    rw [List.any_eq_false]
    intro x hx
    simpa using List.find?_eq_none.mp hfind x hx
  simp [Json.setField, hany, Json.getField, find?_append_of_none _ _ _ hfind, List.find?]

/-- Setting an absent `id` appends the pair and leaves every other field
read unchanged. -/
theorem setField_id_null_getField_other (fields : List (String × Json)) (k : String)
    (hk : k ≠ "id") (hid : (Json.obj fields).getField "id" = none) :
    ((Json.obj fields).setField "id" Json.null).getField k =
      (Json.obj fields).getField k := by
  have hfind : fields.find? (fun f => f.1 = "id") = none := by
    simpa [Json.getField, Option.map_eq_none'] using hid
  have hany : fields.any (fun f => f.1 = "id") = false := by
    rw [List.any_eq_false]
    intro x hx
    simpa using List.find?_eq_none.mp hfind x hx
  simp only [Json.setField, hany, Bool.false_eq_true, if_false, Json.getField]
  cases hf : fields.find? (fun f => f.1 = k) with
  | some v => rw [find?_append_left _ _ _ _ hf]
  | none =>
    rw [find?_append_of_none _ _ _ hf]
    simp [List.find?, hk.symm]

/-! ## C2 — error envelope shapes on `/mcp` -/

/-- C2 counterexample: forwarding `tools/call` with the core throwing
`boom` produces the body `{error: {code: -32603, message: "Internal
error", data: "boom"}}` — with no `id` (the request carried `id: 7`) and
no `jsonrpc` field, refuting the claim that the internal-error envelope
carries the request's id. -/
theorem c2_internal_error_envelope_lacks_id :
    processMcpRequest (fun _ _ => Except.error "boom")
        (Json.obj [("method", Json.str "tools/call"), ("id", Json.num 7)]) =
      Json.obj [("error", Json.obj [("code", Json.num (-32603)),
        ("message", Json.str "Internal error"), ("data", Json.str "boom")])] ∧
    (processMcpRequest (fun _ _ => Except.error "boom")
        (Json.obj [("method", Json.str "tools/call"), ("id", Json.num 7)])).getField
        "id" = none ∧
    (processMcpRequest (fun _ _ => Except.error "boom")
        (Json.obj [("method", Json.str "tools/call"), ("id", Json.num 7)])).getField
        "jsonrpc" = none :=
  ⟨rfl, rfl, rfl⟩

/-- C2 amended: an unrecognized method gets the full JSON-RPC envelope
`{jsonrpc: "2.0", id, error}` with code `-32601` carrying the request's
id; but an error thrown while forwarding a recognized method produces the
bare body `{error: {code: -32603, message: "Internal error", data:
original message}}`, which carries neither `jsonrpc` nor the request's
`id`. -/
theorem mcp_error_envelopes (core : McpCore) (request : Json) :
    (∀ idv m, request.getField "id" = some idv → request.getField "method" = some m →
      (∀ s, m = Json.str s → s ∉ ["initialize", "tools/list", "tools/call"]) →
      processMcpRequest core request =
        Json.obj [("jsonrpc", Json.str "2.0"), ("id", idv),
          ("error", Json.obj [("code", Json.num (-32601)),
            ("message", Json.str ("Method not found: " ++ jsDisplay m))])]) ∧
    (∀ e, (request.getField "method" = some (Json.str "tools/list") ∨
        request.getField "method" = some (Json.str "tools/call")) →
      (∀ method, core method (request.getField "params") = Except.error e) →
      processMcpRequest core request =
        Json.obj [("error", Json.obj [("code", Json.num (-32603)),
          ("message", Json.str "Internal error"), ("data", Json.str e)])] ∧
      (processMcpRequest core request).getField "id" = none ∧
      (processMcpRequest core request).getField "jsonrpc" = none) := by
  constructor
  · intro idv m hid hm hnot
    exact processMcpRequest_unrecognized core request idv m hid hm hnot
  · intro e hm hcore
    have h := processMcpRequest_core_error core request e hm hcore
    exact ⟨h, by rw [h]; rfl, by rw [h]; rfl⟩

/-- Witness for `mcp_error_envelopes`: the unrecognized method `bogus`
with `id: null` gets the full `-32601` envelope, and a throwing core on
`tools/list` gets the bare `-32603` body without an id. -/
theorem mcp_error_envelopes_witness :
    processMcpRequest (fun _ _ => Except.ok (Json.obj []))
        (Json.obj [("method", Json.str "bogus"), ("id", Json.null)]) =
      Json.obj [("jsonrpc", Json.str "2.0"), ("id", Json.null),
        ("error", Json.obj [("code", Json.num (-32601)),
          ("message", Json.str ("Method not found: " ++ jsDisplay (Json.str "bogus")))])] ∧
    (processMcpRequest (fun _ _ => Except.error "down")
        (Json.obj [("method", Json.str "tools/list"), ("id", Json.num 3)])).getField
        "id" = none :=
  ⟨(mcp_error_envelopes (fun _ _ => Except.ok (Json.obj []))
      (Json.obj [("method", Json.str "bogus"), ("id", Json.null)])).1 Json.null
      (Json.str "bogus") rfl rfl
      (fun s hs => by injection hs with h; subst h; decide),
    ((mcp_error_envelopes (fun _ _ => Except.error "down")
      (Json.obj [("method", Json.str "tools/list"), ("id", Json.num 3)])).2 "down"
      (Or.inl rfl) (fun _ => rfl)).2.1⟩

/-! ## C9 — `/mcp` body validation and id normalization -/

/-- C9 counterexample: for the body `{"method": "tools/list"}` (no `id`)
with the core throwing, the 200 response body is the bare `-32603`
error object carrying no `id` at all — refuting the claim that the
response carries `id: null`.  A body parsing to `null` is also not
answered 400: reading `.method` of `null` throws, so the handler answers
500. -/
theorem c9_core_error_response_has_no_id :
    handleMcpRequest (fun _ _ => Except.error "boom")
        (some (Json.obj [("method", Json.str "tools/list")])) =
      (200, Json.obj [("error", Json.obj [("code", Json.num (-32603)),
        ("message", Json.str "Internal error"), ("data", Json.str "boom")])]) ∧
    (handleMcpRequest (fun _ _ => Except.error "boom")
        (some (Json.obj [("method", Json.str "tools/list")]))).2.getField "id" = none ∧
    (handleMcpRequest (fun _ _ => Except.ok (Json.obj [])) (some Json.null)).1 = 500 :=
  ⟨rfl, rfl, rfl⟩

/-- C9 amended: an unparsable body is answered 400; a non-`null` parsed
body whose `method` is absent (falsy) is answered 400 (a `null` body is
answered 500, since reading its `method` property throws); when `method`
is truthy and `id` is absent, the request is processed with `id`
normalized to `null`, and the responses the bridge synthesizes itself
(`initialize` and unrecognized methods) carry `id: null` — the
internal-error body carries no id, and forwarded responses are relayed
verbatim. -/
theorem mcp_request_envelope_handling (core : McpCore) :
    ((handleMcpRequest core none).1 = 400) ∧
    ((handleMcpRequest core (some Json.null)).1 = 500) ∧
    (∀ j, j ≠ Json.null → jsFalsy (j.getField "method") = true →
      (handleMcpRequest core (some j)).1 = 400) ∧
    (∀ j, j ≠ Json.null → jsFalsy (j.getField "method") = false →
      j.getField "id" = none →
      handleMcpRequest core (some j) =
        (200, processMcpRequest core (j.setField "id" Json.null))) ∧
    (∀ fields, (Json.obj fields).getField "id" = none →
      ((Json.obj fields).setField "id" Json.null).getField "id" = some Json.null) ∧
    (∀ fields s, (Json.obj fields).getField "method" = some (Json.str s) →
      s.data.isEmpty = false → s ∉ ["initialize", "tools/list", "tools/call"] →
      (Json.obj fields).getField "id" = none →
      (handleMcpRequest core (some (Json.obj fields))).2.getField "id" =
        some Json.null) ∧
    (∀ fields, (Json.obj fields).getField "method" = some (Json.str "initialize") →
      (Json.obj fields).getField "id" = none →
      (handleMcpRequest core (some (Json.obj fields))).2.getField "id" =
        some Json.null) := by
  have hbranch : ∀ j, j ≠ Json.null → jsFalsy (j.getField "method") = false →
      j.getField "id" = none →
      handleMcpRequest core (some j) =
        (200, processMcpRequest core (j.setField "id" Json.null)) := by
    intro j hne hf hid
    cases j with
    | null => exact absurd rfl hne
    | bool b => simp [handleMcpRequest, hf, hid]
    | num n => simp [handleMcpRequest, hf, hid]
    | str s => simp [handleMcpRequest, hf, hid]
    | arr elems => simp [handleMcpRequest, hf, hid]
    | obj fields => simp [handleMcpRequest, hf, hid]
  refine ⟨rfl, rfl, ?_, hbranch, setField_id_null_getField, ?_, ?_⟩
  · intro j hne hf
    cases j with
    | null => exact absurd rfl hne
    | bool b => simp [handleMcpRequest, hf]
    | num n => simp [handleMcpRequest, hf]
    | str s => simp [handleMcpRequest, hf]
    | arr elems => simp [handleMcpRequest, hf]
    | obj fields => simp [handleMcpRequest, hf]
  · intro fields s hm hstr hs hid
    have hf : jsFalsy ((Json.obj fields).getField "method") = false := by
      rw [hm]; simp [jsFalsy, hstr]
    rw [hbranch (Json.obj fields) (by simp) hf hid]
    have hmn : ((Json.obj fields).setField "id" Json.null).getField "method" =
        some (Json.str s) := by
      rw [setField_id_null_getField_other fields "method" (by decide) hid]
      exact hm
    rw [processMcpRequest_unrecognized core _ Json.null (Json.str s)
      (setField_id_null_getField fields hid) hmn
      (fun t ht => by injection ht with h; subst h; exact hs)]
    rfl
  · intro fields hm hid
    have hf : jsFalsy ((Json.obj fields).getField "method") = false := by
      rw [hm]; simp [jsFalsy]
    rw [hbranch (Json.obj fields) (by simp) hf hid]
    have hmn : ((Json.obj fields).setField "id" Json.null).getField "method" =
        some (Json.str "initialize") := by
      rw [setField_id_null_getField_other fields "method" (by decide) hid]
      exact hm
    rw [processMcpRequest_handshake core _ Json.null
      (setField_id_null_getField fields hid) hmn]
    rfl

/-- Witness for `mcp_request_envelope_handling`: the body
`{"method": "nosuch"}` (no id) is answered 200 with a `-32601` envelope
whose id is `null`. -/
theorem mcp_request_envelope_handling_witness :
    (handleMcpRequest (fun _ _ => Except.ok (Json.obj []))
        (some (Json.obj [("method", Json.str "nosuch")]))).2.getField "id" =
      some Json.null :=
  (mcp_request_envelope_handling (fun _ _ => Except.ok (Json.obj []))).2.2.2.2.2.1
    [("method", Json.str "nosuch")] "nosuch" rfl rfl (by decide) rfl

end GmailMcp

